import Mathlib

/-!
Shallow embedding of the tds-eval evaluator (src/main.py and
src/selenium_runner.py) together with theorems about its task-lifecycle
orchestration and check-interpretation/execution logic.

Conventions of the embedding:
* Python strings are Lean `String`s; where Python string methods matter
  (`split`, `startswith`, `in`, `replace`, `strip`, `lstrip`, `int()`),
  they are re-implemented below over `List Char` with Python's semantics.
* Machine-level effects are made explicit: the in-memory `DB` dict is a
  function `String → Option TaskRecord` threaded through each endpoint,
  `datetime.now()` is a `Time` argument, the outbound HTTP call's outcome
  and the selenium subprocess's outcome are arguments, and a scheduled
  `background_tasks.add_task(run_evaluation_checks, ...)` is returned as
  data (`Option ScheduledRun`).
* A raised `HTTPException(code, detail)` is `Except.error (code, detail)`;
  a returned JSON body is an inductive response value.
* The live browser session driven by selenium is abstracted as a `Browser`
  record of oracles: each primitive wait/lookup either yields a value or a
  Python-exception text (`Except String _`).
-/

namespace TdsEval

/-! ## Python string primitives -/

/-- Python `needle` is an initial segment of `l` (the test behind
`str.startswith`). -/
def leadsWith : List Char → List Char → Bool
  | [], _ => true
  | _ :: _, [] => false
  | a :: as, b :: bs => a == b && leadsWith as bs

/-- Python substring containment `needle in s`. -/
def hasSub (needle : List Char) : List Char → Bool
  | [] => leadsWith needle []
  | c :: cs => leadsWith needle (c :: cs) || hasSub needle cs

/-- Python `s.startswith(p)`. -/
def pyStartsWith (s p : String) : Bool := leadsWith p.toList s.toList

/-- Python `p in s` for strings. -/
def pyContains (s p : String) : Bool := hasSub p.toList s.toList

/-- Worker for `pySplit`: splits at every occurrence of `sep`, keeping empty
pieces, with `acc` the (reversed) piece being accumulated. -/
def splitCharAux (sep : Char) : List Char → List Char → List (List Char)
  | [], acc => [acc.reverse]
  | x :: xs, acc =>
    if x == sep then acc.reverse :: splitCharAux sep xs []
    else splitCharAux sep xs (x :: acc)

/-- Python `s.split(sep)` for a one-character separator. -/
def pySplit (sep : Char) (s : List Char) : List (List Char) :=
  splitCharAux sep s []

/-- Python `s.strip(chars)`: remove the characters of `chars` from both
ends. -/
def pyStrip (chars : List Char) (s : List Char) : List Char :=
  ((s.dropWhile (fun c => chars.contains c)).reverse.dropWhile
    (fun c => chars.contains c)).reverse

/-- Python `s.lstrip('#')`. -/
def pyLstripHash (s : List Char) : List Char := s.dropWhile (fun c => c == '#')

/-- Worker for `pyReplace`, with enough fuel to scan the whole string. -/
def replaceAllAux (pat rep : List Char) : Nat → List Char → List Char
  | 0, s => s
  | _ + 1, [] => []
  | fuel + 1, x :: xs =>
    if !pat.isEmpty && leadsWith pat (x :: xs) then
      rep ++ replaceAllAux pat rep fuel (List.drop (pat.length - 1) xs)
    else
      x :: replaceAllAux pat rep fuel xs

/-- Python `s.replace(pat, rep)` for a non-empty `pat`: replace every
(left-to-right, non-overlapping) occurrence. The empty-pattern case of
Python (inserting `rep` everywhere) is not modelled; every call site uses a
fixed non-empty pattern. -/
def pyReplace (s pat rep : List Char) : List Char :=
  replaceAllAux pat rep s.length s

/-- All-decimal-digit non-empty strings, to their value. -/
def pyDigits (l : List Char) : Option Nat :=
  if !l.isEmpty && l.all Char.isDigit then
    some (l.foldl (fun n c => 10 * n + (c.toNat - 48)) 0)
  else none

/-- Python `int()` on a string: optional surrounding whitespace, an optional
sign, one or more decimal digits. (Digit-grouping underscores and non-ASCII
digits are not modelled.) `none` where Python raises `ValueError`. -/
def pyInt (s : List Char) : Option Int :=
  match pyStrip [' ', '\t', '\n', '\r'] s with
  | [] => none
  | c :: cs =>
    if c == '-' then (pyDigits cs).map (fun n => -(n : Int))
    else if c == '+' then (pyDigits cs).map (fun n => (n : Int))
    else (pyDigits (c :: cs)).map (fun n => (n : Int))

/-! ## selenium_runner.py: data model and browser abstraction -/

/-- One entry of the result list emitted by `run_selenium_checks`
(selenium_runner.py lines 143-147) and validated by the `CheckResult`
pydantic model (main.py lines 66-69). -/
structure CheckResult where
  check : String
  passed : Bool
  details : String
deriving DecidableEq

/-- Abstraction of the live Chrome session opened by selenium_runner.py after
`driver.get(pages_url)`. Each field is the outcome of one primitive driver
interaction the check loop performs; an `Except.error e` is a raised Python
exception with text `str(e)` (e.g. a `TimeoutException`). -/
structure Browser where
  /-- `driver.title`. -/
  title : String
  /-- `WebDriverWait(driver, 5).until(EC.visibility_of_element_located((By.ID, id)))`:
  `ok` when the element becomes visible within the wait, `error` the raised
  exception's text otherwise (lines 65-67). -/
  visibleById : String → Except String Unit
  /-- `WebDriverWait(driver, 5).until(EC.presence_of_element_located((By.ID, id)))`
  followed by `element.text`: `ok` the element's text, `error` the raised
  exception's text (lines 76-79). -/
  presentTextById : String → Except String String
  /-- `len(driver.find_elements(By.CSS_SELECTOR, "#sales-table tbody tr"))`:
  the number of table-body rows under the hardcoded `#sales-table` selector
  (line 89). `find_elements` returns a (possibly empty) list and does not
  raise. -/
  salesTableTbodyRows : Nat
  /-- The whole interaction block of lines 98-104 (type octocat, click,
  wait for `#creation-date` to contain `2011-01-25`): `ok` when every step
  succeeds, `error` the first raised exception's text. -/
  afterEnteringOctocat : Except String Unit
  /-- The interaction block of lines 108-120 (`#api-status` shows
  `Loading...` then becomes empty). -/
  whenFetchingOctocat : Except String Unit
  /-- The interaction block of lines 126-133 (`#api-status` shows
  `User not found`). -/
  whenFetchingMissing : Except String Unit

/-! ## selenium_runner.py: the check loop -/

/-- The body of the `try` block of the per-check loop of
`run_selenium_checks` (selenium_runner.py lines 49-138): the `if/elif`
pattern dispatch on the check-description string. `ok (passed, details)` is
normal fall-through to the `results.append`; `error e` is a raised exception
with text `str(e)`, caught by the per-check `except` clause. -/
def tryCheck (driver : Browser) (check_str : String) : Except String (Bool × String) :=
  let cs := check_str.toList
  -- Page title check (lines 51-58)
  if pyStartsWith check_str "Page title is" then
    let expected_title :=
      String.mk (pyStrip ['\'', '"'] (pyReplace cs ("Page title is ").toList []))
    let actual_title := driver.title
    if actual_title = expected_title then
      .ok (true, "Page title is correctly '" ++ expected_title ++ "'.")
    else
      .ok (false, "Expected title '" ++ expected_title ++ "', but got '" ++ actual_title ++ "'.")
  -- Element existence check (lines 61-69)
  else if pyStartsWith check_str "Page contains an element with id" then
    let el_id? : Except String (List Char) :=
      if cs.contains '\'' then
        match (pySplit '\'' cs).get? 1 with
        | some l => .ok l
        | none => .error "list index out of range"
      else
        match (pySplit '"' cs).get? 1 with
        | some l => .ok l
        | none => .error "list index out of range"
    match el_id? with
    | .error e => .error e
    | .ok el_id =>
      let element_id := String.mk (pyLstripHash el_id)
      match driver.visibleById element_id with
      | .error e => .error e
      | .ok _ => .ok (true, "Element with id '" ++ String.mk el_id ++ "' is visible.")
  -- Element text content check (lines 72-84)
  else if pyStartsWith check_str "The text content of" then
    let parts := pySplit '\'' cs
    match parts.get? 1, parts.get? 3 with
    | some p1, some p3 =>
      let el_id := String.mk (pyLstripHash p1)
      let expected_text := String.mk p3
      match driver.presentTextById el_id with
      | .error e => .error e
      | .ok actual_text =>
        if actual_text = expected_text then
          .ok (true, "Element '" ++ el_id ++ "' has correct text: '" ++ expected_text ++ "'.")
        else
          .ok (false, "Expected text '" ++ expected_text ++ "', but got '" ++ actual_text ++ "'.")
    | _, _ => .error "list index out of range"
  -- Table rows check (lines 87-94); note the hardcoded #sales-table selector
  else if pyContains check_str "Table has at least" then
    match (pySplit ' ' cs).get? 4 with
    | none => .error "list index out of range"
    | some w =>
      match pyInt w with
      | none => .error ("invalid literal for int() with base 10: '" ++ String.mk w ++ "'")
      | some count =>
        let rows := driver.salesTableTbodyRows
        if (rows : Int) ≥ count then
          .ok (true, "Table has " ++ toString rows ++ " data rows, meeting the requirement.")
        else
          .ok (false, "Expected at least " ++ toString count ++ " rows, but found " ++
            toString rows ++ ".")
  -- GitHub octocat user check (lines 97-104)
  else if pyContains check_str "After entering 'octocat'" then
    match driver.afterEnteringOctocat with
    | .error e => .error e
    | .ok _ => .ok (true, "GitHub user fetch for 'octocat' was successful.")
  -- GitHub loading state check (lines 107-122)
  else if pyContains check_str "When fetching user 'octocat'" then
    match driver.whenFetchingOctocat with
    | .error e => .error e
    | .ok _ => .ok (true, "#api-status shows 'Loading...' then becomes empty.")
  -- GitHub error state check (lines 125-134)
  else if pyContains check_str "When fetching a user that does not exist" then
    match driver.whenFetchingMissing with
    | .error e => .error e
    | .ok _ => .ok (true, "#api-status displays 'User not found' for non-existent user.")
  -- Default case (lines 137-138)
  else
    .ok (false, "Unknown check type: " ++ check_str)

/-- One iteration of the per-check loop, including its `except Exception`
failure boundary (selenium_runner.py lines 45-147): the appended result. -/
def runCheck (driver : Browser) (check_str : String) : CheckResult :=
  match tryCheck driver check_str with
  | .ok pd => { check := check_str, passed := pd.1, details := pd.2 }
  | .error e => { check := check_str, passed := false, details := "Check failed: " ++ e }

/-- `run_selenium_checks(pages_url, checks)` (selenium_runner.py lines
20-165). `session` abstracts webdriver/Chrome construction plus
`driver.get(pages_url)` and the settle sleep: `ok` the live session, `error`
the text of an exception raised during setup, which triggers the outer
`except` clause that replaces the batch with all-failed results (lines
149-156). -/
def run_selenium_checks (session : String → Except String Browser)
    (pages_url : String) (checks : List String) : List CheckResult :=
  match session pages_url with
  | .ok driver => checks.map (runCheck driver)
  | .error e =>
    checks.map (fun c => { check := c, passed := false, details := "Selenium error: " ++ e })

/-! ## main.py: data model -/

/-- Timestamps (`datetime.now()` results), abstract and totally ordered. -/
abbrev Time := Nat

/-- main.py lines 41-43. -/
structure Attachment where
  filename : String
  content : String
deriving DecidableEq

/-- The outbound dispatch payload, main.py lines 46-55. -/
structure TaskRequest where
  email : String
  secret : String
  task : String
  round : Int
  nonce : String
  brief : String
  checks : List String
  evaluation_url : String
  attachments : List Attachment
deriving DecidableEq

/-- The notification webhook's body, main.py lines 57-64. -/
structure StudentSubmission where
  email : String
  task : String
  round : Int
  nonce : String
  repo_url : String
  commit_sha : String
  pages_url : String
deriving DecidableEq

/-- main.py lines 71-76; the field defaults are the pydantic defaults, in
particular `status = "pending"`. -/
structure EvaluationResult where
  status : String := "pending"
  submitted_at : Option Time := none
  submission_data : Option StudentSubmission := none
  evaluation_completed_at : Option Time := none
  check_results : List CheckResult := []
deriving DecidableEq

/-- One entry of the in-memory `DB` dict: the value stored by `start_test`
at main.py lines 387-393. -/
structure TaskRecord where
  request : TaskRequest
  sent_at : Time
  student_response_code : Option Int := none
  student_response_body : Option String := none
  evaluation : EvaluationResult := {}
deriving DecidableEq

/-- The in-memory database `DB` (main.py line 36). -/
abbrev DB := String → Option TaskRecord

def dbEmpty : DB := fun _ => none

/-- `DB[k] = v`. -/
def setDB (db : DB) (k : String) (v : TaskRecord) : DB :=
  fun k' => if k' = k then some v else db k'

/-- The environment-derived `SETTINGS` values used by `start_test`
(main.py lines 16-24). -/
structure Settings where
  evaluation_url : String
  student_api_endpoint : String
  shared_secret : String
deriving DecidableEq

/-! ## main.py: the TEST_CASES fixture catalog (lines 81-129) -/

/-- One fixture entry of `TEST_CASES`. -/
structure TestData where
  task : String
  nonce : String
  brief : String
  checks : List String
  attachments : List Attachment
deriving DecidableEq

def salesReport1 : TestData :=
  { task := "sales-report-a8b3d"
    nonce := "nonce-1a2b-3c4d"
    brief := "Create a single-page site that processes an attached CSV file named 'sales.csv'. Calculate the sum of the 'sales' column and display the total inside an HTML element with the id '#total-sales'. The page title must be 'Sales Summary'."
    checks :=
      ["Page title is 'Sales Summary'",
       "Page contains an element with id '#total-sales'",
       "The text content of '#total-sales' is '650.75'"]
    attachments :=
      [{ filename := "sales.csv",
         content := "data:text/csv;base64,cHJvZHVjdCxzYWxlcwpBcHAyMCwxNTAuNTAKQmFuYW5hLDIwMC4yNQpDaGVycnksMzAw" }] }

def salesReport2 : TestData :=
  { task := "sales-report-a8b3d"
    nonce := "nonce-5e6f-7g8h"
    brief := "Update the sales report. Add a table with the id '#sales-table' that displays each product and its corresponding sale amount from 'sales.csv'. The table should have a header row (Product, Sales). The '#total-sales' element must remain correct."
    checks :=
      ["Page contains a table with id '#sales-table'",
       "Table has at least 3 data rows",
       "The text content of '#total-sales' remains '650.75'"]
    attachments :=
      [{ filename := "sales.csv",
         content := "data:text/csv;base64,cHJvZHVjdCxzYWxlcwpBcHAyMCwxNTAuNTAKQmFuYW5hLDIwMC4yNQpDaGVycnksMzAw" }] }

def githubUserInfo1 : TestData :=
  { task := "github-user-info-c7e4f"
    nonce := "nonce-i9j0-k1l2"
    brief := "Create a page with an input field ('#username-input') and a button ('#fetch-btn'). When the button is clicked, fetch user data from 'https://api.github.com/users/{username}' and display the 'created_at' date in an element with id '#creation-date'."
    checks :=
      ["Page has an input with id '#username-input' and a button with id '#fetch-btn'",
       "After entering 'octocat' and clicking the button, '#creation-date' contains '2011-01-25'"]
    attachments := [] }

def githubUserInfo2 : TestData :=
  { task := "github-user-info-c7e4f"
    nonce := "nonce-m3n4-o5p6"
    brief := "Update the GitHub user page. Add a status element with id '#api-status'. It should display 'Loading...' during the API fetch. If the fetch is successful, it should be empty. If the fetch fails (e.g., for a non-existent user), it should display 'User not found'."
    checks :=
      ["When fetching user 'octocat', '#api-status' shows 'Loading...' and then becomes empty.",
       "When fetching a user that does not exist like 'nonexistentuser123456789', '#api-status' displays 'User not found'."]
    attachments := [] }

/-- The two-level lookup `TEST_CASES[test_case_id][round_id]`; `none` where
Python's `in` checks of main.py line 370 fail. -/
def TEST_CASES (test_case_id : String) (round_id : Int) : Option TestData :=
  if test_case_id = "sales-report" then
    if round_id = 1 then some salesReport1
    else if round_id = 2 then some salesReport2
    else none
  else if test_case_id = "github-user-info" then
    if round_id = 1 then some githubUserInfo1
    else if round_id = 2 then some githubUserInfo2
    else none
  else none

/-! ## main.py: endpoint responses and effects -/

/-- A raised `HTTPException(status_code, detail)`. -/
abbrev HttpError := Int × String

/-- The outcome of the awaited `client.post(...)` of main.py lines 400-404:
either a producer response, or a raised `httpx.RequestError` with text
`str(e)`. -/
inductive HttpOutcome where
  | response (status_code : Int) (text : String)
  | requestError (message : String)
deriving DecidableEq

/-- The JSON body returned by `start_test` when no exception is raised:
`{"status": "error", "detail": ..., "response": ...}` (line 412) or
`{"status": "sent", "task_id": ...}` (line 415). -/
inductive StartResp where
  | errorBody (detail : String) (response : String)
  | sent (task_id : String)
deriving DecidableEq

/-- A `background_tasks.add_task(run_evaluation_checks, pages_url=...,
checks=..., task_id=...)` call, recorded as data. -/
structure ScheduledRun where
  pages_url : String
  checks : List String
  task_id : String
deriving DecidableEq

/-- `{"status": "accepted", "detail": "Evaluation has started."}` (line 458). -/
inductive NotifyResp where
  | accepted
deriving DecidableEq

/-- `{"status": "accepted", "detail": "Re-evaluation started."}` (line 492). -/
inductive ReevalResp where
  | accepted
deriving DecidableEq

/-! ## main.py: the orchestrator endpoints -/

/-- The payload construction of main.py lines 376-382. -/
def mkTaskRequest (st : Settings) (round_id : Int) (td : TestData) : TaskRequest :=
  { email := "student@example.com"
    secret := st.shared_secret
    task := td.task
    round := round_id
    nonce := td.nonce
    brief := td.brief
    checks := td.checks
    evaluation_url := st.evaluation_url
    attachments := td.attachments }

/-- The fresh `DB[task_id]` value written at main.py lines 387-393: request
payload, sent timestamp, no producer response yet, and a default
`EvaluationResult()` (status `"pending"`, no results). -/
def freshRecord (payload : TaskRequest) (now : Time) : TaskRecord :=
  { request := payload, sent_at := now }

/-- The part of `start_test` (main.py lines 365-396) that runs before the
outbound network call: fixture validation, payload construction, and the
unconditional `DB[task_id] = ...` store. `error` is the raised 404. -/
def start_test_record (st : Settings) (db : DB) (test_case_id : String) (round_id : Int)
    (now : Time) : Except HttpError (DB × TaskRequest) :=
  match TEST_CASES test_case_id round_id with
  | none => .error (404, "Test case or round not found.")
  | some td =>
    let payload := mkTaskRequest st round_id td
    .ok (setDB db td.task (freshRecord payload now), payload)

/-- `DB[task_id]["student_response_code"/"student_response_body"] = ...`
(main.py lines 405-406). -/
def setRespMeta (db : DB) (task_id : String) (code : Int) (text : String) : DB :=
  match db task_id with
  | some rec =>
    setDB db task_id
      { rec with student_response_code := some code, student_response_body := some text }
  | none => db

/-- `DB[task_id]["evaluation"]["status"] = s` (main.py lines 411 and 418). -/
def setEvalStatus (db : DB) (task_id : String) (s : String) : DB :=
  match db task_id with
  | some rec => setDB db task_id { rec with evaluation := { rec.evaluation with status := s } }
  | none => db

/-- The part of `start_test` after the record is stored: the awaited network
call's aftermath (main.py lines 398-419). On a response, the producer's
status/body are recorded; a non-200 status flips the evaluation status to
`failed_to_send` and returns the error body; a 200 returns the sent body. A
`httpx.RequestError` flips the status to `failed_to_send` and raises a 500. -/
def start_test_send (db : DB) (task_id : String) (net : HttpOutcome) :
    DB × Except HttpError StartResp :=
  match net with
  | .response code text =>
    let db1 := setRespMeta db task_id code text
    if code = 200 then
      (db1, .ok (.sent task_id))
    else
      (setEvalStatus db1 task_id "failed_to_send",
       .ok (.errorBody ("Student API returned " ++ toString code) text))
  | .requestError msg =>
    (setEvalStatus db task_id "failed_to_send",
     .error (500, "Could not connect to student API: " ++ msg))

/-- The whole `start_test` endpoint (main.py lines 365-419), as the
composition of the pre-network store and the network aftermath. -/
def start_test (st : Settings) (db : DB) (test_case_id : String) (round_id : Int)
    (now : Time) (net : HttpOutcome) : DB × Except HttpError StartResp :=
  match start_test_record st db test_case_id round_id now with
  | .error e => (db, .error e)
  | .ok (db1, payload) => start_test_send db1 payload.task net

/-- The `/notify` endpoint (main.py lines 422-458). Returns the new
database, the response (`error` a raised HTTPException), and the background
evaluation run scheduled, if any. -/
def notify_endpoint (db : DB) (submission : StudentSubmission) (now : Time) :
    DB × Except HttpError NotifyResp × Option ScheduledRun :=
  let task_id := submission.task
  match db task_id with
  | none => (db, .error (404, "Task ID not found."), none)
  | some rec =>
    if rec.request.nonce ≠ submission.nonce ∨ rec.request.round ≠ submission.round then
      (db, .error (400, "Nonce or round mismatch."), none)
    else
      (setDB db task_id
        { rec with evaluation :=
          { rec.evaluation with
            status := "evaluating"
            submitted_at := some now
            submission_data := some submission } },
       .ok .accepted,
       some { pages_url := submission.pages_url, checks := rec.request.checks,
              task_id := task_id })

/-- The `/re-evaluate/{task_id}` endpoint (main.py lines 461-492). Python's
falsiness tests map as follows: `submission_data` is a non-empty dict
whenever present, so `if not submission_data` is `Option.isNone`;
`pages_url` is a string, so `if not pages_url` is equality with `""`. -/
def re_evaluate (db : DB) (task_id : String) (now : Time) :
    DB × Except HttpError ReevalResp × Option ScheduledRun :=
  match db task_id with
  | none => (db, .error (404, "Task ID not found."), none)
  | some task_entry =>
    match task_entry.evaluation.submission_data with
    | none => (db, .error (400, "No submission data available to evaluate."), none)
    | some sub =>
      if sub.pages_url = "" then
        (db, .error (400, "Submission does not include a pages_url."), none)
      else
        (setDB db task_id
          { task_entry with evaluation :=
            { task_entry.evaluation with
              status := "re-evaluating"
              evaluation_completed_at := none
              check_results := []
              submitted_at := some now } },
         .ok .accepted,
         some { pages_url := sub.pages_url, checks := task_entry.request.checks,
                task_id := task_id })

/-- The `/results/{task_id}` endpoint (main.py lines 502-509). -/
def get_task_result (db : DB) (task_id : String) : Except HttpError TaskRecord :=
  match db task_id with
  | none => .error (404, "Task ID not found.")
  | some r => .ok r

/-- `Except` success as a Bool. -/
def isOkE {ε α : Type} : Except ε α → Bool
  | .ok _ => true
  | .error _ => false

/-! ## main.py: run_evaluation_checks (the background evaluation driver) -/

/-- The outcome of the isolated selenium subprocess run performed by
`run_evaluation_checks` (main.py lines 291-308): either an exception that
escapes to the outer `except Exception` at line 327 (tempfile or subprocess
failure, or a pydantic validation error while building `CheckResult(**item)`
from decoded output — only `json.JSONDecodeError` is caught by the inner
handler), or the completed process with its exit code, stdout and stderr. -/
inductive RunnerOutcome where
  | exn (message : String)
  | proc (returncode : Int) (stdout : String) (stderr : String)
deriving DecidableEq

/-- `run_evaluation_checks(pages_url, checks, task_id)` (main.py lines
285-338). `decode` abstracts `json.loads(process.stdout)` followed by
`CheckResult(**item)` per item: `none` where `json.loads` raises
`json.JSONDecodeError` (the inner `except` at line 313; a pydantic
validation error on well-formed JSON instead escapes as a
`RunnerOutcome.exn`). Returns the updated database. -/
def run_evaluation_checks (decode : String → Option (List CheckResult)) (db : DB)
    (pages_url : String) (checks : List String) (task_id : String)
    (outcome : RunnerOutcome) (now : Time) : DB :=
  let results : List CheckResult :=
    match outcome with
    | .proc returncode stdout stderr =>
      if returncode = 0 then
        match decode stdout with
        | some rs => rs
        | none =>
          checks.map (fun c =>
            { check := c, passed := false, details := "Failed to parse results" })
      else
        let error_msg := if stderr = "" then "Unknown error in Selenium subprocess" else stderr
        checks.map (fun c =>
          { check := c, passed := false, details := "Runner error: " ++ error_msg })
    | .exn e =>
      checks.map (fun c =>
        { check := c, passed := false,
          details := "Major Selenium failure for task " ++ task_id ++ " at URL " ++
            pages_url ++ ": " ++ e })
  match db task_id with
  | some rec =>
    setDB db task_id
      { rec with evaluation :=
        { rec.evaluation with
          status := "completed"
          evaluation_completed_at := some now
          check_results := results } }
  | none => db

/-- The evaluation status stored for a task, if the task is known. -/
def statusAt (db : DB) (task_id : String) : Option String :=
  (db task_id).map (fun r => r.evaluation.status)

/-! ## Concrete instances (used by witnesses) -/

def settings0 : Settings :=
  { evaluation_url := "http://127.0.0.1:8000/notify"
    student_api_endpoint := "http://student.example/api"
    shared_secret := "secret" }

/-- A concrete browser session: the sales-report page with a three-row
table, on which the missing-user scenario times out. -/
def browser0 : Browser :=
  { title := "Sales Summary"
    visibleById := fun i => if i = "total-sales" then .ok () else .error "timeout on id"
    presentTextById := fun i => if i = "total-sales" then .ok "650.75" else .error "timeout on id"
    salesTableTbodyRows := 3
    afterEnteringOctocat := .ok ()
    whenFetchingOctocat := .ok ()
    whenFetchingMissing := .error "TimeoutException" }

def payload0 : TaskRequest := mkTaskRequest settings0 1 salesReport1

def record0 : TaskRecord := freshRecord payload0 0

/-- A registry holding the freshly dispatched sales-report round 1 task. -/
def db0 : DB := setDB dbEmpty "sales-report-a8b3d" record0

def submission0 : StudentSubmission :=
  { email := "student@example.com"
    task := "sales-report-a8b3d"
    round := 1
    nonce := "nonce-1a2b-3c4d"
    repo_url := "https://github.com/s/r"
    commit_sha := "abc123"
    pages_url := "https://s.github.io/r/" }

/-- `record0` after `submission0` was accepted. -/
def record1 : TaskRecord :=
  { record0 with evaluation :=
    { record0.evaluation with
      status := "evaluating", submitted_at := some 1, submission_data := some submission0 } }

def db1 : DB := setDB dbEmpty "sales-report-a8b3d" record1

/-- `record0` after a submission whose `pages_url` is the empty string. -/
def record2 : TaskRecord :=
  { record0 with evaluation :=
    { record0.evaluation with
      status := "evaluating", submitted_at := some 1,
      submission_data := some { submission0 with pages_url := "" } } }

def db2 : DB := setDB dbEmpty "sales-report-a8b3d" record2

/-- A stdout decoder on which `json.loads` always fails. -/
def decode0 : String → Option (List CheckResult) := fun _ => none

/-- A session constructor that fails during setup. -/
def sessionFail : String → Except String Browser := fun _ => .error "no chrome"

/-- A session constructor that yields `browser0`. -/
def sessionOk : String → Except String Browser := fun _ => .ok browser0

/-- The first check description of the sales-report round 2 fixture. -/
def salesRound2TableCheck : String := "Page contains a table with id '#sales-table'"

/-! ## Helper lemmas -/

theorem runCheck_check (driver : Browser) (c : String) : (runCheck driver c).check = c := by
  unfold runCheck
  cases tryCheck driver c <;> rfl

theorem map_runCheck_check (driver : Browser) (checks : List String) :
    (checks.map (runCheck driver)).map CheckResult.check = checks := by
  induction checks with
  | nil => rfl
  | cons c cs ih => simp [runCheck_check, ih]

theorem map_const_fail_check (d : String) (checks : List String) :
    (checks.map (fun c => ({ check := c, passed := false, details := d } : CheckResult))).map
      CheckResult.check = checks := by
  induction checks with
  | nil => rfl
  | cons c cs ih => simp [ih]

/-! ## Claims -/

/-- C2: for every pages URL and every list of check descriptions,
`run_selenium_checks` returns exactly one CheckResult per description, in
input order (so `len(check_results) == len(checks)`); a per-check exception
is contained into a single failed result for that check; and on session
setup failure every entry is present, failed, with the setup error text. -/
theorem run_selenium_checks_one_result_per_check
    (session : String → Except String Browser) (pages_url : String) (checks : List String) :
    (run_selenium_checks session pages_url checks).map CheckResult.check = checks
    ∧ (run_selenium_checks session pages_url checks).length = checks.length
    ∧ (∀ e, session pages_url = .error e →
        ∀ r ∈ run_selenium_checks session pages_url checks,
          r.passed = false ∧ r.details = "Selenium error: " ++ e)
    ∧ (∀ driver c e, tryCheck driver c = .error e →
        runCheck driver c =
          { check := c, passed := false, details := "Check failed: " ++ e }) := by
  refine ⟨?_, ?_, ?_, ?_⟩
  · unfold run_selenium_checks
    cases h : session pages_url with
    | ok driver => exact map_runCheck_check driver checks
    | error e => exact map_const_fail_check ("Selenium error: " ++ e) checks
  · unfold run_selenium_checks
    cases h : session pages_url <;> simp
  · intro e he r hr
    unfold run_selenium_checks at hr
    rw [he] at hr
    simp only [List.mem_map] at hr
    obtain ⟨c, _, rfl⟩ := hr
    exact ⟨rfl, rfl⟩
  · intro driver c e h
    unfold runCheck
    rw [h]

/-- C2 witness: a setup failure on a two-check batch yields one failed
result per check, in order, each carrying the setup error text. -/
theorem run_selenium_checks_one_result_per_check_witness :
    (run_selenium_checks sessionFail "https://s.github.io/r/" ["a", "b"]).map CheckResult.check
      = ["a", "b"]
    ∧ ∀ r ∈ run_selenium_checks sessionFail "https://s.github.io/r/" ["a", "b"],
        r.passed = false ∧ r.details = "Selenium error: no chrome" :=
  ⟨(run_selenium_checks_one_result_per_check sessionFail "https://s.github.io/r/" ["a", "b"]).1,
   fun r hr =>
     (run_selenium_checks_one_result_per_check sessionFail "https://s.github.io/r/"
       ["a", "b"]).2.2.1 "no chrome" rfl r hr⟩

/-- C7: a check description matching none of the recognized patterns never
fails interpretation: it executes to a failed CheckResult whose detail is
exactly `"Unknown check type: <description>"`. -/
theorem unrecognized_check_yields_unknown_check_type (driver : Browser) (s : String)
    (h1 : pyStartsWith s "Page title is" = false)
    (h2 : pyStartsWith s "Page contains an element with id" = false)
    (h3 : pyStartsWith s "The text content of" = false)
    (h4 : pyContains s "Table has at least" = false)
    (h5 : pyContains s "After entering 'octocat'" = false)
    (h6 : pyContains s "When fetching user 'octocat'" = false)
    (h7 : pyContains s "When fetching a user that does not exist" = false) :
    runCheck driver s = { check := s, passed := false, details := "Unknown check type: " ++ s } := by
  unfold runCheck tryCheck
  simp [h1, h2, h3, h4, h5, h6, h7]

/-- C7 witness: on a concrete unrecognized description, against a concrete
browser, the result is the catch-all failure. -/
theorem unrecognized_check_yields_unknown_check_type_witness :
    runCheck browser0 "Check the page footer" =
      { check := "Check the page footer", passed := false,
        details := "Unknown check type: Check the page footer" } :=
  unrecognized_check_yields_unknown_check_type browser0 "Check the page footer"
    (by decide) (by decide) (by decide) (by decide) (by decide) (by decide) (by decide)

/-- C9: the built-in sales-report round 2 check `"Page contains a table
with id '#sales-table'"` begins with `"Page contains a table"`, not with
`"Page contains an element with id"`, and matches none of the recognized
patterns, so against every page it yields a failed result with detail
`"Unknown check type: ..."` — it can never pass. -/
theorem sales_round2_table_check_never_passes (driver : Browser) :
    (TEST_CASES "sales-report" 2).map TestData.checks =
      some ["Page contains a table with id '#sales-table'",
            "Table has at least 3 data rows",
            "The text content of '#total-sales' remains '650.75'"]
    ∧ pyStartsWith salesRound2TableCheck "Page contains an element with id" = false
    ∧ pyStartsWith salesRound2TableCheck "Page title is" = false
    ∧ pyStartsWith salesRound2TableCheck "The text content of" = false
    ∧ pyContains salesRound2TableCheck "Table has at least" = false
    ∧ pyContains salesRound2TableCheck "After entering 'octocat'" = false
    ∧ pyContains salesRound2TableCheck "When fetching user 'octocat'" = false
    ∧ pyContains salesRound2TableCheck "When fetching a user that does not exist" = false
    ∧ runCheck driver salesRound2TableCheck =
        { check := salesRound2TableCheck, passed := false,
          details := "Unknown check type: Page contains a table with id '#sales-table'" } := by
  refine ⟨by decide, by decide, by decide, by decide, by decide, by decide, by decide, by decide, ?_⟩
  rfl

/-- C9 witness: the round 2 table check fails on the concrete browser whose
page does have a `#sales-table` with three rows. -/
theorem sales_round2_table_check_never_passes_witness :
    runCheck browser0 salesRound2TableCheck =
      { check := salesRound2TableCheck, passed := false,
        details := "Unknown check type: Page contains a table with id '#sales-table'" } :=
  (sales_round2_table_check_never_passes browser0).2.2.2.2.2.2.2.2

theorem splitCharAux_append (sep : Char) : ∀ (xs ys acc : List Char),
    (∀ a ∈ xs, (a == sep) = false) →
    splitCharAux sep (xs ++ sep :: ys) acc = (acc.reverse ++ xs) :: splitCharAux sep ys []
  | [], ys, acc, _ => by simp [splitCharAux]
  | x :: xs, ys, acc, h => by
    have hx : (x == sep) = false := h x (by simp)
    have ih := splitCharAux_append sep xs ys (x :: acc) (fun a ha => h a (by simp [ha]))
    simp [splitCharAux, hx, ih]

/-- C8: on a description of the form `"Table has at least N ..."` (a
space-free word `w` in the fifth position that Python `int()` reads as `N`),
the check reads the row count from the fixed, hardcoded CSS selector
`#sales-table tbody tr` — nothing of the description selects the table —
and passes exactly when that row count is at least `N`. -/
theorem table_min_rows_check_targets_sales_table (driver : Browser) (s : String)
    (w rest : List Char) (n : Int)
    (h0 : s.toList = ("Table has at least ").toList ++ (w ++ ' ' :: rest))
    (hw : ∀ a ∈ w, (a == ' ') = false)
    (hn : pyInt w = some n) :
    runCheck driver s =
      { check := s
        passed := decide ((driver.salesTableTbodyRows : Int) ≥ n)
        details :=
          if (driver.salesTableTbodyRows : Int) ≥ n then
            "Table has " ++ toString driver.salesTableTbodyRows ++
              " data rows, meeting the requirement."
          else
            "Expected at least " ++ toString n ++ " rows, but found " ++
              toString driver.salesTableTbodyRows ++ "." }
    ∧ ((runCheck driver s).passed = true ↔ (driver.salesTableTbodyRows : Int) ≥ n) := by
  have hA : pyStartsWith s "Page title is" = false := by
    simp only [pyStartsWith]
    rw [h0]
    rfl
  have hB : pyStartsWith s "Page contains an element with id" = false := by
    simp only [pyStartsWith]
    rw [h0]
    rfl
  have hC : pyStartsWith s "The text content of" = false := by
    simp only [pyStartsWith]
    rw [h0]
    rfl
  have hD : pyContains s "Table has at least" = true := by
    simp only [pyContains]
    rw [h0]
    rfl
  have h0' : s.data = ("Table has at least ").toList ++ (w ++ ' ' :: rest) := h0
  have hsplit : (pySplit ' ' s.data)[4]? = some w := by
    rw [h0']
    show (splitCharAux ' '
      (("Table").toList ++ ' ' :: (("has").toList ++ ' ' :: (("at").toList ++ ' ' ::
        (("least").toList ++ ' ' :: (w ++ ' ' :: rest))))) [])[4]? = some w
    rw [splitCharAux_append ' ' _ _ _ (by decide),
        splitCharAux_append ' ' _ _ _ (by decide),
        splitCharAux_append ' ' _ _ _ (by decide),
        splitCharAux_append ' ' _ _ _ (by decide),
        splitCharAux_append ' ' _ _ _ hw]
    simp
  by_cases hge : (driver.salesTableTbodyRows : Int) ≥ n
  · simp [runCheck, tryCheck, hA, hB, hC, hD, hsplit, hn, hge]
  · simp [runCheck, tryCheck, hA, hB, hC, hD, hsplit, hn, hge]

/-- C8 witness: `"Table has at least 3 data rows"` against the concrete
three-row browser passes. -/
theorem table_min_rows_check_targets_sales_table_witness :
    (runCheck browser0 "Table has at least 3 data rows").passed = true :=
  (table_min_rows_check_targets_sales_table browser0 "Table has at least 3 data rows"
    (['3']) (("data rows").toList) 3 (by decide) (by decide) (by decide)).2.mpr (by decide)

/-- C3: a notification for an unknown task id is rejected with a 404 and no
state change; a known task id with a nonce or round differing from the
original dispatch payload is rejected with a 400 and no state change; and
when both match, the status becomes `evaluating`, the submission and a
timestamp are recorded, the runner is scheduled with the submitted pages
URL and the dispatched checks, and the response is the immediate
`accepted` acknowledgment. -/
theorem notify_validates_then_schedules (db : DB) (submission : StudentSubmission)
    (now : Time) :
    (db submission.task = none →
      notify_endpoint db submission now = (db, .error (404, "Task ID not found."), none))
    ∧ (∀ rec, db submission.task = some rec →
        rec.request.nonce ≠ submission.nonce ∨ rec.request.round ≠ submission.round →
        notify_endpoint db submission now = (db, .error (400, "Nonce or round mismatch."), none))
    ∧ (∀ rec, db submission.task = some rec →
        rec.request.nonce = submission.nonce → rec.request.round = submission.round →
        notify_endpoint db submission now =
          (setDB db submission.task
            { rec with evaluation :=
              { rec.evaluation with
                status := "evaluating", submitted_at := some now,
                submission_data := some submission } },
           .ok .accepted,
           some { pages_url := submission.pages_url, checks := rec.request.checks,
                  task_id := submission.task })) := by
  refine ⟨?_, ?_, ?_⟩
  · intro h
    simp [notify_endpoint, h]
  · intro rec h hmis
    simp only [notify_endpoint, h]
    rw [if_pos hmis]
  · intro rec h h1 h2
    simp only [notify_endpoint, h]
    rw [if_neg (by simp [h1, h2])]

/-- C3 witness: the three branches at concrete inputs — a matching
submission against `db0`, a wrong-nonce submission, and an unknown task. -/
theorem notify_validates_then_schedules_witness :
    notify_endpoint db0 submission0 1 =
      (setDB db0 "sales-report-a8b3d"
        { record0 with evaluation :=
          { record0.evaluation with
            status := "evaluating", submitted_at := some 1,
            submission_data := some submission0 } },
       .ok .accepted,
       some { pages_url := "https://s.github.io/r/", checks := salesReport1.checks,
              task_id := "sales-report-a8b3d" })
    ∧ notify_endpoint db0 { submission0 with nonce := "wrong" } 1 =
        (db0, .error (400, "Nonce or round mismatch."), none)
    ∧ notify_endpoint dbEmpty submission0 1 =
        (dbEmpty, .error (404, "Task ID not found."), none) :=
  ⟨(notify_validates_then_schedules db0 submission0 1).2.2 record0 rfl rfl rfl,
   (notify_validates_then_schedules db0 { submission0 with nonce := "wrong" } 1).2.1
     record0 rfl (Or.inl (by decide)),
   (notify_validates_then_schedules dbEmpty submission0 1).1 rfl⟩

/-- C5: re-evaluation of an unknown task id, of a task with no recorded
submission, or of one whose recorded submission has an empty `pages_url`,
is rejected with a client error and no state change; otherwise the check
results are cleared, the completion timestamp is reset, the status becomes
`re-evaluating`, the submission timestamp is refreshed, and the runner is
rescheduled with the originally dispatched checks and the previously
submitted pages URL. -/
theorem re_evaluate_requires_submission_then_reschedules (db : DB) (task_id : String)
    (now : Time) :
    (db task_id = none →
      re_evaluate db task_id now = (db, .error (404, "Task ID not found."), none))
    ∧ (∀ rec, db task_id = some rec → rec.evaluation.submission_data = none →
        re_evaluate db task_id now =
          (db, .error (400, "No submission data available to evaluate."), none))
    ∧ (∀ rec sub, db task_id = some rec → rec.evaluation.submission_data = some sub →
        sub.pages_url = "" →
        re_evaluate db task_id now =
          (db, .error (400, "Submission does not include a pages_url."), none))
    ∧ (∀ rec sub, db task_id = some rec → rec.evaluation.submission_data = some sub →
        sub.pages_url ≠ "" →
        re_evaluate db task_id now =
          (setDB db task_id
            { rec with evaluation :=
              { rec.evaluation with
                status := "re-evaluating", evaluation_completed_at := none,
                check_results := [], submitted_at := some now } },
           .ok .accepted,
           some { pages_url := sub.pages_url, checks := rec.request.checks,
                  task_id := task_id })) := by
  refine ⟨?_, ?_, ?_, ?_⟩
  · intro h
    simp [re_evaluate, h]
  · intro rec h hsub
    simp [re_evaluate, h, hsub]
  · intro rec sub h hsub hurl
    simp only [re_evaluate, h, hsub]
    rw [if_pos hurl]
  · intro rec sub h hsub hurl
    simp only [re_evaluate, h, hsub]
    rw [if_neg hurl]

/-- C5 witness: the four branches at concrete inputs — a task with a
submitted pages URL, an unknown task, a task with no submission, and a
task whose submission has an empty pages URL. -/
theorem re_evaluate_requires_submission_then_reschedules_witness :
    re_evaluate db1 "sales-report-a8b3d" 9 =
      (setDB db1 "sales-report-a8b3d"
        { record1 with evaluation :=
          { record1.evaluation with
            status := "re-evaluating", evaluation_completed_at := none,
            check_results := [], submitted_at := some 9 } },
       .ok .accepted,
       some { pages_url := "https://s.github.io/r/", checks := salesReport1.checks,
              task_id := "sales-report-a8b3d" })
    ∧ re_evaluate dbEmpty "sales-report-a8b3d" 9 =
        (dbEmpty, .error (404, "Task ID not found."), none)
    ∧ re_evaluate db0 "sales-report-a8b3d" 9 =
        (db0, .error (400, "No submission data available to evaluate."), none)
    ∧ re_evaluate db2 "sales-report-a8b3d" 9 =
        (db2, .error (400, "Submission does not include a pages_url."), none) :=
  ⟨(re_evaluate_requires_submission_then_reschedules db1 "sales-report-a8b3d" 9).2.2.2
     record1 submission0 rfl rfl (by decide),
   (re_evaluate_requires_submission_then_reschedules dbEmpty "sales-report-a8b3d" 9).1 rfl,
   (re_evaluate_requires_submission_then_reschedules db0 "sales-report-a8b3d" 9).2.1
     record0 rfl rfl,
   (re_evaluate_requires_submission_then_reschedules db2 "sales-report-a8b3d" 9).2.2.1
     record2 { submission0 with pages_url := "" } rfl rfl rfl⟩

/-- C1 counterexample: dispatching the known fixture sales-report round 1
stores, before the network call is made, a record whose evaluation status
is `"pending"` — not `"sent"` as the claim states (`"sent"` appears only in
the HTTP response body of the success path, never as the stored status). -/
theorem start_test_pre_send_status_is_pending_not_sent :
    (start_test_record settings0 dbEmpty "sales-report" 1 0).map
      (fun p => statusAt p.1 "sales-report-a8b3d") = .ok (some "pending")
    ∧ "pending" ≠ "sent" := ⟨rfl, by decide⟩

/-- C1 (amended): for every dispatch of a known fixture and round,
`start_test` creates the TaskRecord in the registry before the outbound
network call — with its evaluation status set to `"pending"`, the
`EvaluationResult()` default, rather than `"sent"` — so that whatever the
network outcome, a record remains inspectable under the dispatched task
id. -/
theorem start_test_stores_pending_record_before_send (st : Settings) (db : DB)
    (tc : String) (r : Int) (now : Time) (td : TestData) (h : TEST_CASES tc r = some td) :
    start_test_record st db tc r now =
      .ok (setDB db td.task (freshRecord (mkTaskRequest st r td) now), mkTaskRequest st r td)
    ∧ setDB db td.task (freshRecord (mkTaskRequest st r td) now) td.task =
        some (freshRecord (mkTaskRequest st r td) now)
    ∧ (freshRecord (mkTaskRequest st r td) now).evaluation.status = "pending"
    ∧ ∀ net, ((start_test st db tc r now net).1 td.task).isSome = true := by
  refine ⟨?_, ?_, rfl, ?_⟩
  · simp [start_test_record, h]
  · simp [setDB]
  · intro net
    cases net with
    | response code text =>
      by_cases hc : code = 200 <;>
        simp [start_test, start_test_record, h, start_test_send, setRespMeta, setEvalStatus,
          setDB, mkTaskRequest, freshRecord, hc]
    | requestError msg =>
      simp [start_test, start_test_record, h, start_test_send, setEvalStatus, setDB,
        mkTaskRequest, freshRecord]

/-- C1 witness: the amended claim at sales-report round 1 with a failing
dispatch — the record is there, status `"pending"` before the send, and
still inspectable after the connection failure. -/
theorem start_test_stores_pending_record_before_send_witness :
    (freshRecord (mkTaskRequest settings0 1 salesReport1) 0).evaluation.status = "pending"
    ∧ ((start_test settings0 dbEmpty "sales-report" 1 0
        (.requestError "connection refused")).1 "sales-report-a8b3d").isSome = true :=
  ⟨(start_test_stores_pending_record_before_send settings0 dbEmpty "sales-report" 1 0
      salesReport1 rfl).2.2.1,
   (start_test_stores_pending_record_before_send settings0 dbEmpty "sales-report" 1 0
      salesReport1 rfl).2.2.2 (.requestError "connection refused")⟩

/-- C6: for every dispatch of a known fixture, a non-2xx producer response
leaves the task's evaluation status `failed_to_send` and is surfaced to the
caller as an error body (not a raised exception — every producer response
yields an `ok` HTTP result); only the transport error (`httpx.RequestError`)
is surfaced as a raised request-level 500; in both failure cases the
TaskRecord remains queryable through the results endpoint. -/
theorem start_test_failure_modes (st : Settings) (db : DB) (tc : String) (r : Int)
    (now : Time) (td : TestData) (h : TEST_CASES tc r = some td) :
    (∀ code text, ¬ (200 ≤ code ∧ code < 300) →
      statusAt (start_test st db tc r now (.response code text)).1 td.task =
          some "failed_to_send"
      ∧ (start_test st db tc r now (.response code text)).2 =
          .ok (.errorBody ("Student API returned " ++ toString code) text)
      ∧ isOkE (get_task_result (start_test st db tc r now (.response code text)).1 td.task) =
          true)
    ∧ (∀ code text, isOkE (start_test st db tc r now (.response code text)).2 = true)
    ∧ (∀ msg,
      statusAt (start_test st db tc r now (.requestError msg)).1 td.task =
          some "failed_to_send"
      ∧ (start_test st db tc r now (.requestError msg)).2 =
          .error (500, "Could not connect to student API: " ++ msg)
      ∧ isOkE (get_task_result (start_test st db tc r now (.requestError msg)).1 td.task) =
          true) := by
  refine ⟨?_, ?_, ?_⟩
  · intro code text hcode
    have hc : ¬ code = 200 := by
      intro e
      subst e
      exact hcode ⟨le_refl 200, by norm_num⟩
    refine ⟨?_, ?_, ?_⟩ <;>
      simp [start_test, start_test_record, h, start_test_send, setRespMeta, setEvalStatus,
        setDB, statusAt, get_task_result, isOkE, mkTaskRequest, freshRecord, hc]
  · intro code text
    by_cases hc : code = 200 <;>
      simp [start_test, start_test_record, h, start_test_send, setRespMeta, setEvalStatus,
        setDB, isOkE, mkTaskRequest, freshRecord, hc]
  · intro msg
    refine ⟨?_, ?_, ?_⟩ <;>
      simp [start_test, start_test_record, h, start_test_send, setEvalStatus, setDB,
        statusAt, get_task_result, isOkE, mkTaskRequest, freshRecord]

/-- C6 witness: a 503 producer response and a transport error against the
sales-report round 1 dispatch. -/
theorem start_test_failure_modes_witness :
    statusAt (start_test settings0 dbEmpty "sales-report" 1 0 (.response 503 "oops")).1
      "sales-report-a8b3d" = some "failed_to_send"
    ∧ (start_test settings0 dbEmpty "sales-report" 1 0 (.response 503 "oops")).2 =
        .ok (.errorBody ("Student API returned " ++ toString (503 : Int)) "oops")
    ∧ statusAt (start_test settings0 dbEmpty "sales-report" 1 0
        (.requestError "connection refused")).1 "sales-report-a8b3d" =
        some "failed_to_send" :=
  ⟨((start_test_failure_modes settings0 dbEmpty "sales-report" 1 0 salesReport1 rfl).1
      503 "oops" (by decide)).1,
   ((start_test_failure_modes settings0 dbEmpty "sales-report" 1 0 salesReport1 rfl).1
      503 "oops" (by decide)).2.1,
   ((start_test_failure_modes settings0 dbEmpty "sales-report" 1 0 salesReport1 rfl).2.2
      "connection refused").1⟩

/-- C10: dispatching a known fixture and round unconditionally replaces the
registry entry at the fixture's task id with a fresh record whose
evaluation status is `pending` and whose check results are empty, whatever
the registry previously held at that id; both rounds of the sales-report
fixture share the task id `sales-report-a8b3d`, so dispatching round 2
discards round 1's entire record. -/
theorem start_test_overwrites_entry_with_fresh_pending (st : Settings) (db : DB)
    (tc : String) (r : Int) (now : Time) (td : TestData) (h : TEST_CASES tc r = some td) :
    (start_test_record st db tc r now).map (fun p => p.1 td.task) =
      .ok (some (freshRecord (mkTaskRequest st r td) now))
    ∧ (freshRecord (mkTaskRequest st r td) now).evaluation.status = "pending"
    ∧ (freshRecord (mkTaskRequest st r td) now).evaluation.check_results = []
    ∧ (TEST_CASES "sales-report" 1).map TestData.task = some "sales-report-a8b3d"
    ∧ (TEST_CASES "sales-report" 2).map TestData.task = some "sales-report-a8b3d" := by
  refine ⟨?_, rfl, rfl, by decide, by decide⟩
  simp [start_test_record, h, setDB, Except.map]

/-- C10 witness: dispatching round 2 over a registry already holding round
1's record replaces it with the fresh round 2 record. -/
theorem start_test_overwrites_entry_with_fresh_pending_witness :
    (start_test_record settings0 db0 "sales-report" 2 5).map
      (fun p => p.1 "sales-report-a8b3d") =
      .ok (some (freshRecord (mkTaskRequest settings0 2 salesReport2) 5)) :=
  (start_test_overwrites_entry_with_fresh_pending settings0 db0 "sales-report" 2 5
    salesReport2 rfl).1

/-- C4: when the isolated runner process exits non-zero, or exits zero with
stdout that does not decode — whether the JSON itself fails to parse or a
decoded item fails validation (the escaped-exception outcome) — every
requested check receives a failed CheckResult with one uniform diagnostic
(the same detail string for the whole batch), and the task's evaluation
status still reaches the terminal `completed` state. -/
theorem runner_failure_completes_all_failed (decode : String → Option (List CheckResult))
    (db : DB) (pages_url : String) (checks : List String) (task_id : String) (now : Time)
    (rc : Int) (stdout stderr : String) (rec : TaskRecord)
    (hdb : db task_id = some rec) (hbad : rc ≠ 0 ∨ decode stdout = none) :
    (∃ d : String,
      run_evaluation_checks decode db pages_url checks task_id (.proc rc stdout stderr) now =
        setDB db task_id
          { rec with evaluation :=
            { rec.evaluation with
              status := "completed", evaluation_completed_at := some now,
              check_results := checks.map (fun c =>
                { check := c, passed := false, details := d }) } })
    ∧ statusAt (run_evaluation_checks decode db pages_url checks task_id
        (.proc rc stdout stderr) now) task_id = some "completed"
    ∧ (∀ e, run_evaluation_checks decode db pages_url checks task_id (.exn e) now =
        setDB db task_id
          { rec with evaluation :=
            { rec.evaluation with
              status := "completed", evaluation_completed_at := some now,
              check_results := checks.map (fun c =>
                { check := c, passed := false,
                  details := "Major Selenium failure for task " ++ task_id ++ " at URL " ++
                    pages_url ++ ": " ++ e }) } }
        ∧ statusAt (run_evaluation_checks decode db pages_url checks task_id (.exn e) now)
            task_id = some "completed") := by
  have hexn : ∀ e, run_evaluation_checks decode db pages_url checks task_id (.exn e) now =
      setDB db task_id
        { rec with evaluation :=
          { rec.evaluation with
            status := "completed", evaluation_completed_at := some now,
            check_results := checks.map (fun c =>
              { check := c, passed := false,
                details := "Major Selenium failure for task " ++ task_id ++ " at URL " ++
                  pages_url ++ ": " ++ e }) } }
      ∧ statusAt (run_evaluation_checks decode db pages_url checks task_id (.exn e) now)
          task_id = some "completed" := by
    intro e
    constructor
    · simp [run_evaluation_checks, hdb]
    · simp [run_evaluation_checks, hdb, statusAt, setDB]
  by_cases hrc : rc = 0
  · have hdec : decode stdout = none := by
      rcases hbad with hn | hd
      · exact absurd hrc hn
      · exact hd
    refine ⟨⟨"Failed to parse results", by simp [run_evaluation_checks, hrc, hdec, hdb]⟩,
      by simp [run_evaluation_checks, hrc, hdec, hdb, statusAt, setDB], hexn⟩
  · refine ⟨⟨"Runner error: " ++
        (if stderr = "" then "Unknown error in Selenium subprocess" else stderr),
        by simp [run_evaluation_checks, hrc, hdb]⟩,
      by simp [run_evaluation_checks, hrc, hdb, statusAt, setDB], hexn⟩

/-- C4 witness: a non-zero runner exit against the evaluating sales-report
task still drives the stored status to `completed`. -/
theorem runner_failure_completes_all_failed_witness :
    statusAt (run_evaluation_checks decode0 db1 "https://s.github.io/r/" ["a", "b"]
      "sales-report-a8b3d" (.proc 1 "" "boom") 7) "sales-report-a8b3d" = some "completed" :=
  (runner_failure_completes_all_failed decode0 db1 "https://s.github.io/r/" ["a", "b"]
    "sales-report-a8b3d" 7 1 "" "boom" record1 rfl (Or.inl (by decide))).2.1

end TdsEval
